import Mathlib

/-!
Verification of `OpcionesTEST.py`, a single-file Streamlit dashboard that
lets a user pick a ticker, strike, expiration date and option type, and then
displays the matching options-chain row, key metrics and a price-history
chart.

The script is embedded shallowly:

* Python floats become `ℚ`; `round(x, 2)` becomes exact round-half-to-even
  on `100 * x` (Python's `round` ties to even).
* pandas DataFrames become `List OptionRow` (the options chain) or `List ℚ`
  (the `Close` column of a price history).
* The market-data provider (`yfinance`) is an abstract `Provider` record;
  calls that can raise are modelled with `Except String`.
* Streamlit rendering is modelled as the list of display widgets the script
  emits, in order; `st.stop()` ends the list.  Input widgets
  (`st.text_input`, `st.number_input`, `st.selectbox`, `st.button`) supply
  values through an `Inputs` record; pure layout (`st.columns`,
  `st.subheader`, `st.set_page_config`) is not modelled.
-/

namespace Opciones

/-- One row of an options-chain DataFrame (the columns the script reads:
`contractSymbol`, `strike`, `lastPrice`, `bid`, `ask`, `impliedVolatility`). -/
structure OptionRow where
  contractSymbol : String
  strike : ℚ
  lastPrice : ℚ
  bid : ℚ
  ask : ℚ
  impliedVolatility : ℚ
deriving DecidableEq

/-- The abstract market-data provider (`yfinance`).
`history1d` is the `Close` column of `Ticker(sym).history(period="1d")`;
`options` is `Ticker(sym).options`;
`optionChain sym fecha` is `Ticker(sym).option_chain(fecha)` as (calls, puts),
raising modelled as `Except.error`;
`optionHistory1mo cs` is the `Close` column of
`Ticker(cs).history(period="1mo")`, raising modelled as `Except.error`. -/
structure Provider where
  history1d : String → List ℚ
  options : String → List String
  optionChain : String → String → Except String (List OptionRow × List OptionRow)
  optionHistory1mo : String → Except String (List ℚ)

/-- The values carried by the input widgets on one script run.
`strikeIdx` and `fechaIdx` are the positions picked in the two selectboxes
(defaults 10 and 0 in the UI). -/
structure Inputs where
  tickerInput : String
  strikeCentral : ℚ
  strikeIdx : ℕ
  fechaIdx : ℕ
  tipoOpcion : String
  buscarClicked : Bool

/-- The display widgets the script can emit, carrying the data shown. -/
inductive Widget where
  | titleW
  | errorTickerInvalido (sym : String)
  | stopped
  | successPrecio (sym : String) (precio : ℚ)
  | warningSinOpciones (sym : String)
  | infoBuscando (sym fecha tipo : String) (strike : ℚ)
  | errorBusqueda (msg : String)
  | warningSinCoincidencia
  | successEncontrada
  | dataframe (rows : List OptionRow)
  | metricUltimoPrecio (v : ℚ)
  | metricBid (v : ℚ)
  | metricAsk (v : ℚ)
  | metricVolatilidad (v : ℚ)
  | lineChart (closes : List ℚ)
  | warningSinHistorial
  | markdownRule
  | writeFooter
deriving DecidableEq

/-! ### Python's `round` on rationals -/

/-- Round to the nearest integer, ties to even — the rounding Python's
built-in `round` applies. -/
def roundHalfToEven (x : ℚ) : ℤ :=
  let n := ⌊x⌋
  let r := x - n
  if r < 1 / 2 then n
  else if 1 / 2 < r then n + 1
  else if Even n then n else n + 1

/-- Python's `round(x, 2)`. -/
def pyRound2 (x : ℚ) : ℚ := (roundHalfToEven (x * 100) : ℚ) / 100

/-! ### Strike candidates (line 65 of the script)

`strikes_disponibles = [round(strike_central + (i - 10) * 0.5, 2) for i in range(21)]` -/

def strikes_disponibles (strike_central : ℚ) : List ℚ :=
  (List.range 21).map (fun (i : ℕ) => pyRound2 (strike_central + ((i : ℚ) - 10) * 0.5))

/-! ### Expiration-date thinning (lines 76–82 of the script)

```
fechas_a_mostrar = list(todas_las_fechas[:10])
if len(todas_las_fechas) > 10:
    fechas_lejanas = todas_las_fechas[10:]
    paso = max(1, len(fechas_lejanas) // 10)
    for i in range(0, len(fechas_lejanas), paso):
        if len(fechas_a_mostrar) < 20:
            fechas_a_mostrar.append(fechas_lejanas[i])
```
-/

/-- The index list Python's `range(0, n, paso)` denotes (`paso > 0`):
`0, paso, 2*paso, …`, all below `n`. -/
def rangoPaso (n paso : ℕ) : List ℕ :=
  List.range' 0 ((n + paso - 1) / paso) paso

/-- The dates the `for` loop visits: `fechas_lejanas[i]` for
`i in range(0, len(fechas_lejanas), paso)` with
`paso = max(1, len(fechas_lejanas) // 10)`. -/
def muestreoLejanas {α : Type} [Inhabited α] (fechas_lejanas : List α) : List α :=
  let paso := max 1 (fechas_lejanas.length / 10)
  (rangoPaso fechas_lejanas.length paso).map (fun i => fechas_lejanas.getD i default)

/-- Lines 76–82: the thinned list of expiration dates shown in the selectbox. -/
def fechas_a_mostrar {α : Type} [Inhabited α] (todas_las_fechas : List α) : List α :=
  let base := todas_las_fechas.take 10
  if todas_las_fechas.length > 10 then
    let fechas_lejanas := todas_las_fechas.drop 10
    let paso := max 1 (fechas_lejanas.length / 10)
    (rangoPaso fechas_lejanas.length paso).foldl
      (fun acc i => if acc.length < 20 then acc ++ [fechas_lejanas.getD i default] else acc)
      base
  else base

/-! ### The script as a function from provider and inputs to widgets -/

/-- Lines 29–38: `get_option_history` fetches the one-month history of an
option contract, swallowing any exception and returning an empty DataFrame
in its place. -/
def get_option_history (P : Provider) (contract_symbol : String) : List ℚ :=
  match P.optionHistory1mo contract_symbol with
  | Except.ok h => h
  | Except.error _ => []

/-- Line 99: `datos = calls if tipo_opcion_elegido == "Call" else puts`. -/
def elegirDatos (calls puts : List OptionRow) (tipo : String) : List OptionRow :=
  if tipo = "Call" then calls else puts

/-- Line 101: `opcion_seleccionada = datos[datos['strike'] == strike_elegido]`. -/
def opcion_seleccionada (datos : List OptionRow) (strike_elegido : ℚ) : List OptionRow :=
  datos.filter (fun r => decide (r.strike = strike_elegido))

/-- Lines 117–129: the price-history section — `st.line_chart` of the
`Close` column when the fetched history is non-empty, a warning otherwise. -/
def graficoHistorial (P : Provider) (contract_symbol : String) : List Widget :=
  let history_df := get_option_history P contract_symbol
  if history_df.isEmpty then [Widget.warningSinHistorial]
  else [Widget.lineChart history_df]

/-- Lines 103–129: display of the filtered selection — a warning when it is
empty, otherwise the dataframe, the four metrics read from the first row
(`iloc[0]`), and the history section for the first row's contract symbol. -/
def mostrarResultados (P : Provider) (sel : List OptionRow) : List Widget :=
  match sel with
  | [] => [Widget.warningSinCoincidencia]
  | r :: _ =>
    [Widget.successEncontrada, Widget.dataframe sel,
      Widget.metricUltimoPrecio r.lastPrice, Widget.metricBid r.bid,
      Widget.metricAsk r.ask, Widget.metricVolatilidad r.impliedVolatility]
      ++ graficoHistorial P r.contractSymbol

/-- Lines 96–129: the body of the `try` block.  The only failure point the
embedding can surface is the chain fetch (`get_option_dataframes`); all the
later steps are total.  A raised exception is the `Except.error` case. -/
def cuerpoBusqueda (P : Provider) (sym fecha tipo : String) (strike_elegido : ℚ) :
    Except String (List Widget) := do
  let (calls, puts) ← P.optionChain sym fecha
  let datos := elegirDatos calls puts tipo
  let sel := opcion_seleccionada datos strike_elegido
  pure (mostrarResultados P sel)

/-- Lines 93–133: the `Buscar Opción` click handler — the `st.info` banner,
then the `try` body, with the catch-all turning any exception into
`st.error` of its message. -/
def manejadorBusqueda (P : Provider) (sym fecha tipo : String) (strike_elegido : ℚ) :
    List Widget :=
  Widget.infoBuscando sym fecha tipo strike_elegido ::
    (match cuerpoBusqueda P sym fecha tipo strike_elegido with
     | Except.ok ws => ws
     | Except.error e => [Widget.errorBusqueda e])

/-- Python truthiness of `fecha_elegida` (a `None`-able string). -/
def fechaTruthy : Option String → Bool
  | none => false
  | some s => !(s = "")

/-- Lines 69–84: the expiration-date column — a warning and
`fecha_elegida = None` when the provider reports no dates, otherwise the
selectbox over the thinned dates. -/
def seccionVencimiento (todas_las_fechas : List String) (sym : String) (idx : ℕ) :
    List Widget × Option String :=
  if todas_las_fechas.isEmpty then ([Widget.warningSinOpciones sym], none)
  else ([], some ((fechas_a_mostrar todas_las_fechas).getD idx ""))

/-- Lines 55–133: the part of the script that runs after the ticker proved
valid (`precio_actual` extracted). -/
def restoScript (P : Provider) (sym : String) (inp : Inputs) (precio_actual : ℚ) :
    List Widget :=
  let strikes := strikes_disponibles inp.strikeCentral
  let strike_elegido := strikes.getD inp.strikeIdx 0
  let venc := seccionVencimiento (P.options sym) sym inp.fechaIdx
  let busqueda :=
    if inp.buscarClicked && fechaTruthy venc.2 then
      manejadorBusqueda P sym (venc.2.getD "") inp.tipoOpcion strike_elegido
    else []
  Widget.successPrecio sym precio_actual :: (venc.1 ++ busqueda)

/-- Lines 8–136 for a fixed uppercased symbol: the title; nothing more when
the symbol is empty (`if ticker_simbolo:`); error and `st.stop()` when the
one-day history is empty (`iloc[-1]` raises `IndexError`); otherwise the
rest of the script followed by the footer lines 135–136. -/
def scriptConSimbolo (P : Provider) (sym : String) (inp : Inputs) : List Widget :=
  if sym = "" then [Widget.titleW, Widget.markdownRule, Widget.writeFooter]
  else
    match (P.history1d sym).getLast? with
    | none => [Widget.titleW, Widget.errorTickerInvalido sym, Widget.stopped]
    | some precio_actual =>
      Widget.titleW ::
        (restoScript P sym inp precio_actual ++ [Widget.markdownRule, Widget.writeFooter])

/-- Python's `str.upper()` (character-wise uppercasing, exact on the ASCII
tickers the app handles). -/
def aMayusculas (s : String) : String :=
  ⟨s.data.map Char.toUpper⟩

/-- The whole script run: line 43 uppercases the typed ticker once and every
later use goes through that symbol. -/
def runScript (P : Provider) (inp : Inputs) : List Widget :=
  scriptConSimbolo P (aMayusculas inp.tickerInput) inp

/-! ### The framework's memoization of the two fetch functions

Modelled from the spec: the memoization itself lives in the dashboard
framework, not in this repository — "the dashboard framework's built-in
memoization of two fetch functions keyed by their arguments, with a
one-hour expiry".  A cache is an association list of (key, stored value,
store time in seconds); an entry is fresh at `now` while
`now < stored + ttl`.  One framework rule matters for fidelity to line 20:
`st.cache_data` documents that a parameter whose name begins with an
underscore — here `_ticker` — is excluded from the cache key, so
`get_option_dataframes` is keyed by the expiration date alone. -/

/-- Fresh-entry lookup of the framework cache. -/
def cacheLookup {ν : Type} (ttl now : ℕ) (entradas : List (String × ν × ℕ))
    (k : String) : Option ν :=
  match entradas.find? (fun e => decide (e.1 = k) && decide (now < e.2.2 + ttl)) with
  | some e => some e.2.1
  | none => none

/-- Lines 19–26 under `@st.cache_data(ttl=3600)`: the chain fetch, keyed by
`fecha` only (the `_ticker` parameter is excluded from the key).  Returns
the result, the updated cache, and whether the underlying fetch ran. -/
def get_option_dataframes_cacheado (P : Provider)
    (cache : List (String × (List OptionRow × List OptionRow) × ℕ)) (now : ℕ)
    (_ticker fecha : String) :
    Except String (List OptionRow × List OptionRow)
      × List (String × (List OptionRow × List OptionRow) × ℕ) × Bool :=
  match cacheLookup 3600 now cache fecha with
  | some v => (Except.ok v, cache, false)
  | none =>
    match P.optionChain _ticker fecha with
    | Except.ok v => (Except.ok v, (fecha, v, now) :: cache, true)
    | Except.error e => (Except.error e, cache, true)

/-- Lines 29–38 under `@st.cache_data(ttl=3600)`: the history fetch, keyed
by its argument `contract_symbol`. -/
def get_option_history_cacheado (P : Provider)
    (cache : List (String × List ℚ × ℕ)) (now : ℕ) (contract_symbol : String) :
    List ℚ × List (String × List ℚ × ℕ) × Bool :=
  match cacheLookup 3600 now cache contract_symbol with
  | some v => (v, cache, false)
  | none =>
    let v := get_option_history P contract_symbol
    (v, (contract_symbol, v, now) :: cache, true)

/-! ### Concrete example data used by witnesses -/

/-- A provider whose every fetch fails or is empty. -/
def proveedorVacio : Provider where
  history1d := fun _ => []
  options := fun _ => []
  optionChain := fun _ _ => Except.error "x"
  optionHistory1mo := fun _ => Except.error "x"

/-- A provider with one priced ticker but no listed options. -/
def proveedorSinOpciones : Provider where
  history1d := fun _ => [100]
  options := fun _ => []
  optionChain := fun _ _ => Except.error "x"
  optionHistory1mo := fun _ => Except.error "x"

/-- One concrete call row. -/
def filaEjemplo : OptionRow :=
  { contractSymbol := "AAPL250117C95", strike := 95, lastPrice := 7/2,
    bid := 17/5, ask := 18/5, impliedVolatility := 1/4 }

/-- A provider holding exactly `filaEjemplo` as its single call. -/
def proveedorEjemplo : Provider where
  history1d := fun _ => [100]
  options := fun _ => ["2025-01-17"]
  optionChain := fun _ _ => Except.ok ([filaEjemplo], [])
  optionHistory1mo := fun _ => Except.ok [3, 4]

/-- Concrete input-widget values. -/
def entradasEjemplo : Inputs :=
  { tickerInput := "aapl", strikeCentral := 100, strikeIdx := 10,
    fechaIdx := 0, tipoOpcion := "Call", buscarClicked := true }

/-- A second call row, for a second ticker. -/
def filaEjemploMSFT : OptionRow :=
  { contractSymbol := "MSFT250117C95", strike := 95, lastPrice := 2,
    bid := 1, ask := 3, impliedVolatility := 1/5 }

/-- A provider whose chains differ between two tickers. -/
def proveedorDosTickers : Provider where
  history1d := fun _ => [100]
  options := fun _ => ["2025-01-17"]
  optionChain := fun sym _ =>
    if sym = "AAPL" then Except.ok ([filaEjemplo], [])
    else Except.ok ([filaEjemploMSFT], [])
  optionHistory1mo := fun _ => Except.ok [3]

/-- The cache after `get_option_dataframes("AAPL", "2025-01-17")` at `t = 0`
followed by `get_option_dataframes("MSFT", "2025-01-17")` at `t = 0`. -/
def cacheTrasDosLlamadas : List (String × (List OptionRow × List OptionRow) × ℕ) :=
  (get_option_dataframes_cacheado proveedorDosTickers
    (get_option_dataframes_cacheado proveedorDosTickers [] 0 "AAPL" "2025-01-17").2.1
    0 "MSFT" "2025-01-17").2.1

/-- The result of repeating the `("MSFT", "2025-01-17")` call. -/
def llamadaRepetidaMSFT : Except String (List OptionRow × List OptionRow) :=
  (get_option_dataframes_cacheado proveedorDosTickers
    cacheTrasDosLlamadas 0 "MSFT" "2025-01-17").1

/-! ### Facts about the rounding -/

/-- Adding an even integer commutes with round-half-to-even. -/
theorem roundHalfToEven_add_even (x : ℚ) (n : ℤ) (hn : Even n) :
    roundHalfToEven (x + n) = roundHalfToEven x + n := by
  unfold roundHalfToEven
  rw [Int.floor_add_int]
  have hfr : x + (n : ℚ) - ((⌊x⌋ + n : ℤ) : ℚ) = x - (⌊x⌋ : ℚ) := by
    push_cast; ring
  have he : Even (⌊x⌋ + n) ↔ Even ⌊x⌋ := by
    rw [Int.even_add]; tauto
  simp only [hfr, he]
  split_ifs <;> ring

/-- `pyRound2` commutes with shifting by an integer multiple of `1/2`. -/
theorem pyRound2_add_half_int (c : ℚ) (k : ℤ) :
    pyRound2 (c + (k : ℚ) / 2) = pyRound2 c + (k : ℚ) / 2 := by
  unfold pyRound2
  have h1 : (c + (k : ℚ) / 2) * 100 = c * 100 + ((50 * k : ℤ) : ℚ) := by
    push_cast; ring
  rw [h1, roundHalfToEven_add_even _ _ ⟨25 * k, by ring⟩]
  push_cast; ring

theorem strikes_disponibles_getD (c : ℚ) (i : ℕ) (hi : i < 21) :
    (strikes_disponibles c).getD i 0 = pyRound2 c + ((i : ℚ) - 10) / 2 := by
  have hlen : i < (strikes_disponibles c).length := by
    simpa [strikes_disponibles] using hi
  rw [List.getD_eq_getElem _ _ hlen]
  have h05 : c + ((i : ℚ) - 10) * 0.5 = c + (((i : ℤ) - 10 : ℤ) : ℚ) / 2 := by
    push_cast; ring
  have hsh := pyRound2_add_half_int c ((i : ℤ) - 10)
  simp only [strikes_disponibles] at hlen ⊢
  rw [List.getElem_map, List.getElem_range, h05, hsh]
  push_cast; ring

/-- **C2.** Line 65: for any reference value `c`, the script builds exactly 21
strike candidates; candidate `i` equals `round(c + (i - 10) * 0.5, 2)`, which
is `round(c, 2) + (i - 10) / 2`, so the candidates run from `round(c, 2) - 5`
to `round(c, 2) + 5` in steps of `1/2` and the middle candidate (index 10,
the selectbox default) is the rounded reference value itself. -/
theorem c2_strike_candidates (c : ℚ) :
    (strikes_disponibles c).length = 21 ∧
    (∀ i : ℕ, i < 21 →
      (strikes_disponibles c).getD i 0 = pyRound2 c + ((i : ℚ) - 10) / 2) ∧
    (strikes_disponibles c).getD 10 0 = pyRound2 c := by
  refine ⟨by simp only [strikes_disponibles, List.length_map, List.length_range],
    strikes_disponibles_getD c, ?_⟩
  have := strikes_disponibles_getD c 10 (by norm_num)
  simpa using this

/-- Witness for C2 at `c = 101.237` and `i = 3`. -/
theorem c2_strike_candidates_witness :
    (strikes_disponibles (101237 / 1000)).getD 3 0
      = pyRound2 (101237 / 1000) + ((3 : ℚ) - 10) / 2 :=
  (c2_strike_candidates (101237 / 1000)).2.1 3 (by norm_num)

/-! ### Facts about the thinning loop -/

/-- The `append while the accumulator is shorter than 20` fold keeps the
accumulator and appends a prefix of the mapped list. -/
theorem foldl_appendWhile {α β : Type} (f : β → α) (xs : List β) :
    ∀ acc : List α,
      xs.foldl (fun a i => if a.length < 20 then a ++ [f i] else a) acc
        = acc ++ (xs.map f).take (20 - acc.length) := by
  induction xs with
  | nil => intro acc; simp
  | cons x t ih =>
    intro acc
    rw [List.foldl_cons]
    by_cases h : acc.length < 20
    · rw [if_pos h, ih]
      obtain ⟨k, hk⟩ : ∃ k, 20 - acc.length = k + 1 := ⟨20 - acc.length - 1, by omega⟩
      have hk' : 20 - (acc ++ [f x]).length = k := by
        simp only [List.length_append, List.length_cons, List.length_nil]
        omega
      rw [hk', List.map_cons, hk, List.take_succ_cons, List.append_assoc,
        List.singleton_append]
    · rw [if_neg h, ih]
      have h0 : 20 - acc.length = 0 := by omega
      rw [h0]
      simp

/-- Every index Python's `range(0, n, paso)` visits is below `n`. -/
theorem rangoPaso_lt {n paso : ℕ} (hp : 0 < paso) (_hn : 0 < n) :
    ∀ i ∈ rangoPaso n paso, i < n := by
  intro i hi
  rw [rangoPaso, List.mem_range'] at hi
  obtain ⟨j, hj, rfl⟩ := hi
  have h1 : ((n + paso - 1) / paso) * paso ≤ n + paso - 1 := Nat.div_mul_le_self _ _
  have h2 : paso * (j + 1) ≤ paso * ((n + paso - 1) / paso) :=
    Nat.mul_le_mul_left paso hj
  have h3 : paso * (j + 1) = paso * j + paso := by ring
  have h4 : ((n + paso - 1) / paso) * paso = paso * ((n + paso - 1) / paso) := by ring
  omega

/-- `range(0, n, paso)` is strictly increasing. -/
theorem rangoPaso_pairwise (n paso : ℕ) (hp : 0 < paso) :
    (rangoPaso n paso).Pairwise (· < ·) :=
  List.pairwise_lt_range' 0 _ paso hp

/-- Reading a list at a strictly increasing list of in-range indices gives a
sublist. -/
theorem map_getD_sublist {α : Type} [Inhabited α] (l : List α) (is : List ℕ)
    (hb : ∀ i ∈ is, i < l.length) (hs : is.Pairwise (· < ·)) :
    (is.map (fun i => l.getD i default)).Sublist l := by
  have h2 : (is.pmap (fun i h => (⟨i, h⟩ : Fin l.length)) hb).Pairwise (· < ·) :=
    hs.pmap hb (fun x hx y hy hxy => hxy)
  have h1 : (is.pmap (fun i h => (⟨i, h⟩ : Fin l.length)) hb).map (fun i => l[i])
      = is.map (fun i => l.getD i default) := by
    rw [List.map_pmap]
    have hmid : List.pmap (fun (i : ℕ) (_ : i < l.length) => l.getD i default) is hb
        = is.map (fun i => l.getD i default) :=
      List.pmap_eq_map _ _ _ _
    rw [← hmid]
    exact List.pmap_congr_left is
      (fun i hi h₁ h₂ => (List.getD_eq_getElem l default h₁).symm)
  exact h1 ▸ List.map_getElem_sublist h2

/-- The sampled far dates form a sublist of the far dates. -/
theorem muestreoLejanas_sublist {α : Type} [Inhabited α] (l : List α) :
    (muestreoLejanas l).Sublist l := by
  rcases Nat.eq_zero_or_pos l.length with h0 | hpos
  · have : l = [] := List.eq_nil_of_length_eq_zero h0
    subst this
    simp [muestreoLejanas, rangoPaso]
  · exact map_getD_sublist l _
      (rangoPaso_lt (Nat.lt_of_lt_of_le Nat.zero_lt_one (Nat.le_max_left _ _)) hpos)
      (rangoPaso_pairwise _ _ (Nat.lt_of_lt_of_le Nat.zero_lt_one (Nat.le_max_left _ _)))

/-- Closed form of the thinning loop: on a short list it is the identity;
on a long list it keeps the first ten dates and appends at most ten sampled
far dates. -/
theorem fechas_a_mostrar_eq {α : Type} [Inhabited α] (todas : List α) :
    fechas_a_mostrar todas =
      if 10 < todas.length
      then todas.take 10 ++ (muestreoLejanas (todas.drop 10)).take 10
      else todas := by
  by_cases h : 10 < todas.length
  · simp only [fechas_a_mostrar, gt_iff_lt, if_pos h]
    rw [foldl_appendWhile (fun i => (todas.drop 10).getD i default)]
    have hb : (todas.take 10).length = 10 := by
      rw [List.length_take]; omega
    rw [hb, muestreoLejanas]
  · simp only [fechas_a_mostrar, gt_iff_lt, if_neg h]
    exact List.take_of_length_le (by omega)

/-- **C1.** Lines 76–82: the thinning of the expiration dates shows at most
20 entries — the first 10 dates verbatim, and, when more than 10 dates
exist, dates sampled from the remainder at indices
`0, paso, 2*paso, …` with `paso = max 1 (remainder.length / 10)`
(`muestreoLejanas`), each appended only while the result has fewer than 20
entries (equivalently: at most 10 of the sampled dates). -/
theorem c1_thinning {α : Type} [Inhabited α] (todas : List α) :
    (fechas_a_mostrar todas).length ≤ 20 ∧
    (fechas_a_mostrar todas).take 10 = todas.take 10 ∧
    (todas.length ≤ 10 → fechas_a_mostrar todas = todas) ∧
    (10 < todas.length →
      fechas_a_mostrar todas
        = todas.take 10 ++ (muestreoLejanas (todas.drop 10)).take 10) := by
  rw [fechas_a_mostrar_eq]
  by_cases h : 10 < todas.length
  · rw [if_pos h]
    have hb : (todas.take 10).length = 10 := by
      rw [List.length_take]; omega
    refine ⟨?_, ?_, fun hle => absurd h (by omega), fun _ => rfl⟩
    · rw [List.length_append, hb, List.length_take]
      omega
    · exact List.take_left' hb
  · rw [if_neg h]
    exact ⟨by omega, rfl, fun _ => rfl, fun hgt => absurd hgt h⟩

/-- Witness for C1 on a concrete 25-element list. -/
theorem c1_thinning_witness :
    fechas_a_mostrar (List.range 25)
      = (List.range 25).take 10 ++ (muestreoLejanas ((List.range 25).drop 10)).take 10 :=
  (c1_thinning (List.range 25)).2.2.2 (by decide)

/-- **C8.** The thinned list is an order-preserving subsequence of the input
(so every displayed date occurs in the input, in the input's relative
order); the sampling strides land on strictly increasing, hence distinct,
indices; a duplicate-free input yields a duplicate-free display; and an
input of at most 10 dates is displayed unchanged. -/
theorem c8_thinning_subsequence {α : Type} [Inhabited α] (todas : List α) :
    (fechas_a_mostrar todas).Sublist todas ∧
    (rangoPaso (todas.drop 10).length
      (max 1 ((todas.drop 10).length / 10))).Pairwise (· < ·) ∧
    (todas.Nodup → (fechas_a_mostrar todas).Nodup) ∧
    (todas.length ≤ 10 → fechas_a_mostrar todas = todas) := by
  have hsub : (fechas_a_mostrar todas).Sublist todas := by
    rw [fechas_a_mostrar_eq]
    by_cases h : 10 < todas.length
    · rw [if_pos h]
      have h1 : ((muestreoLejanas (todas.drop 10)).take 10).Sublist (todas.drop 10) :=
        (List.take_sublist _ _).trans (muestreoLejanas_sublist _)
      have h2 := (List.Sublist.refl (todas.take 10)).append h1
      rwa [List.take_append_drop] at h2
    · rw [if_neg h]
  refine ⟨hsub, rangoPaso_pairwise _ _ ?_, fun hnd => hnd.sublist hsub, fun hle => ?_⟩
  · exact Nat.lt_of_lt_of_le Nat.zero_lt_one (Nat.le_max_left _ _)
  · rw [fechas_a_mostrar_eq, if_neg (by omega)]

/-- Witness for C8: the short-input and duplicate-free cases at concrete
lists. -/
theorem c8_thinning_subsequence_witness :
    fechas_a_mostrar [5, 7, 9] = [5, 7, 9] ∧ (fechas_a_mostrar (List.range 30)).Nodup :=
  ⟨(c8_thinning_subsequence [5, 7, 9]).2.2.2 (by decide),
    (c8_thinning_subsequence (List.range 30)).2.2.1 (by decide)⟩

/-! ### C3–C6, C9, C10 -/

/-- **C3.** Lines 99–114: the rows kept are exactly those of the chosen
table (calls for `"Call"`, otherwise puts) whose `strike` column equals the
chosen strike; an empty selection renders only the no-match warning; a
non-empty selection renders the dataframe and the four metrics read from the
first selected row, followed by the history section of that row's contract. -/
theorem c3_filtrado (P : Provider) (calls puts : List OptionRow) (tipo : String) (strike : ℚ) :
    (∀ r : OptionRow,
      r ∈ opcion_seleccionada (elegirDatos calls puts tipo) strike ↔
        r ∈ elegirDatos calls puts tipo ∧ r.strike = strike) ∧
    (tipo = "Call" → elegirDatos calls puts tipo = calls) ∧
    (tipo ≠ "Call" → elegirDatos calls puts tipo = puts) ∧
    (∀ datos : List OptionRow, opcion_seleccionada datos strike = [] →
      mostrarResultados P (opcion_seleccionada datos strike)
        = [Widget.warningSinCoincidencia]) ∧
    (∀ (datos : List OptionRow) (r : OptionRow) (rest : List OptionRow),
      opcion_seleccionada datos strike = r :: rest →
      mostrarResultados P (opcion_seleccionada datos strike)
        = [Widget.successEncontrada, Widget.dataframe (opcion_seleccionada datos strike),
           Widget.metricUltimoPrecio r.lastPrice, Widget.metricBid r.bid,
           Widget.metricAsk r.ask, Widget.metricVolatilidad r.impliedVolatility]
          ++ graficoHistorial P r.contractSymbol) := by
  refine ⟨fun r => ?_, fun h => by rw [elegirDatos, if_pos h],
    fun h => by rw [elegirDatos, if_neg h], fun datos h => by rw [h]; rfl,
    fun datos r rest h => by rw [h]; rfl⟩
  simp [opcion_seleccionada, List.mem_filter]

/-- Witness for C3: the found case on `proveedorEjemplo`'s single call. -/
theorem c3_filtrado_witness :
    mostrarResultados proveedorEjemplo (opcion_seleccionada [filaEjemplo] 95)
      = [Widget.successEncontrada, Widget.dataframe (opcion_seleccionada [filaEjemplo] 95),
         Widget.metricUltimoPrecio filaEjemplo.lastPrice, Widget.metricBid filaEjemplo.bid,
         Widget.metricAsk filaEjemplo.ask, Widget.metricVolatilidad filaEjemplo.impliedVolatility]
        ++ graficoHistorial proveedorEjemplo filaEjemplo.contractSymbol :=
  (c3_filtrado proveedorEjemplo [filaEjemplo] [] "Call" 95).2.2.2.2
    [filaEjemplo] filaEjemplo [] (by rfl)

/-- **C4.** Lines 49–53: an uppercased non-empty ticker whose one-day price
history is empty makes `iloc[-1]` raise `IndexError`; the script shows the
invalid-ticker error and `st.stop()`s, so nothing after the check (not even
the footer) is rendered. -/
theorem c4_ticker_invalido (P : Provider) (inp : Inputs)
    (hsym : (aMayusculas inp.tickerInput) ≠ "")
    (hvacio : P.history1d (aMayusculas inp.tickerInput) = []) :
    runScript P inp
      = [Widget.titleW, Widget.errorTickerInvalido (aMayusculas inp.tickerInput),
         Widget.stopped] := by
  unfold runScript scriptConSimbolo
  rw [if_neg hsym, hvacio]
  rfl

/-- Witness for C4 on the all-empty provider. -/
theorem c4_ticker_invalido_witness :
    runScript proveedorVacio entradasEjemplo
      = [Widget.titleW, Widget.errorTickerInvalido "AAPL", Widget.stopped] :=
  c4_ticker_invalido proveedorVacio entradasEjemplo (by decide) rfl

/-- **C5.** Lines 29–38 and 123–129: a failing option-history fetch is
swallowed into an empty table; an empty history renders the no-data warning
in place of the chart, a non-empty one renders the line chart of the `Close`
column. -/
theorem c5_historial (P : Provider) (cs : String) :
    (∀ e, P.optionHistory1mo cs = Except.error e → get_option_history P cs = []) ∧
    (get_option_history P cs = [] →
      graficoHistorial P cs = [Widget.warningSinHistorial]) ∧
    (get_option_history P cs ≠ [] →
      graficoHistorial P cs = [Widget.lineChart (get_option_history P cs)]) := by
  refine ⟨fun e he => ?_, fun h => ?_, fun h => ?_⟩
  · unfold get_option_history
    rw [he]
  · unfold graficoHistorial
    rw [h]
    rfl
  · unfold graficoHistorial
    rw [if_neg (by simpa [List.isEmpty_iff] using h)]

/-- Witness for C5 on the failing provider. -/
theorem c5_historial_witness :
    get_option_history proveedorVacio "C95" = [] ∧
    graficoHistorial proveedorVacio "C95" = [Widget.warningSinHistorial] :=
  ⟨(c5_historial proveedorVacio "C95").1 "x" rfl,
    (c5_historial proveedorVacio "C95").2.1 ((c5_historial proveedorVacio "C95").1 "x" rfl)⟩

/-- **C6.** Lines 95–133: the handler is total — the `try` body's outcome is
either rendered as-is or, on any exception, turned into a single `st.error`
carrying the exception's message; a failing chain fetch is such an
exception. -/
theorem c6_catch_all (P : Provider) (sym fecha tipo : String) (strike : ℚ) :
    (∀ e, cuerpoBusqueda P sym fecha tipo strike = Except.error e →
      manejadorBusqueda P sym fecha tipo strike
        = [Widget.infoBuscando sym fecha tipo strike, Widget.errorBusqueda e]) ∧
    (∀ ws, cuerpoBusqueda P sym fecha tipo strike = Except.ok ws →
      manejadorBusqueda P sym fecha tipo strike
        = Widget.infoBuscando sym fecha tipo strike :: ws) ∧
    (∀ e, P.optionChain sym fecha = Except.error e →
      cuerpoBusqueda P sym fecha tipo strike = Except.error e) := by
  refine ⟨fun e he => ?_, fun ws hw => ?_, fun e he => ?_⟩
  · unfold manejadorBusqueda
    rw [he]
  · unfold manejadorBusqueda
    rw [hw]
  · unfold cuerpoBusqueda
    rw [he]
    rfl

/-- Witness for C6 on the failing provider. -/
theorem c6_catch_all_witness :
    manejadorBusqueda proveedorVacio "AAPL" "2025-01-17" "Call" 95
      = [Widget.infoBuscando "AAPL" "2025-01-17" "Call" 95, Widget.errorBusqueda "x"] :=
  (c6_catch_all proveedorVacio "AAPL" "2025-01-17" "Call" 95).1 "x" rfl

/-- **C9.** Line 43: the symbol driving every provider lookup is the
uppercased typed ticker, so two typed tickers with the same uppercasing
produce identical runs. -/
theorem c9_mayusculas (P : Provider) (inp : Inputs) (s₁ s₂ : String)
    (h : aMayusculas s₁ = aMayusculas s₂) :
    runScript P { inp with tickerInput := s₁ }
        = runScript P { inp with tickerInput := s₂ } ∧
    runScript P inp = scriptConSimbolo P (aMayusculas inp.tickerInput) inp := by
  obtain ⟨t, c, si, fi, tp, b⟩ := inp
  refine ⟨?_, rfl⟩
  show scriptConSimbolo P (aMayusculas s₁) _ = scriptConSimbolo P (aMayusculas s₂) _
  rw [h]
  rfl

/-- Witness for C9: `"aApL"` and `"AAPl"` drive identical runs. -/
theorem c9_mayusculas_witness :
    runScript proveedorEjemplo { entradasEjemplo with tickerInput := "aApL" }
      = runScript proveedorEjemplo { entradasEjemplo with tickerInput := "AAPl" } :=
  (c9_mayusculas proveedorEjemplo entradasEjemplo "aApL" "AAPl" (by decide)).1

/-- **C10.** Lines 71-74 and 92: with a valid ticker but no expiration
dates, the script warns, `fecha_elegida` is `None`, and the button guard
`st.button(...) and fecha_elegida` keeps the whole lookup-and-display block
from running, whatever the button state. -/
theorem c10_sin_fechas (P : Provider) (inp : Inputs) (p : ℚ)
    (hsym : (aMayusculas inp.tickerInput) ≠ "")
    (hprecio : (P.history1d (aMayusculas inp.tickerInput)).getLast? = some p)
    (hopts : P.options (aMayusculas inp.tickerInput) = []) :
    runScript P inp
      = [Widget.titleW, Widget.successPrecio (aMayusculas inp.tickerInput) p,
         Widget.warningSinOpciones (aMayusculas inp.tickerInput),
         Widget.markdownRule, Widget.writeFooter] ∧
    (seccionVencimiento (P.options (aMayusculas inp.tickerInput))
      (aMayusculas inp.tickerInput) inp.fechaIdx).2 = none := by
  constructor
  · unfold runScript scriptConSimbolo
    rw [if_neg hsym, hprecio]
    unfold restoScript seccionVencimiento
    rw [hopts]
    simp [fechaTruthy]
  · rw [hopts]
    rfl

/-- Witness for C10 on the provider with a price but no options. -/
theorem c10_sin_fechas_witness :
    runScript proveedorSinOpciones entradasEjemplo
      = [Widget.titleW, Widget.successPrecio "AAPL" 100,
         Widget.warningSinOpciones "AAPL", Widget.markdownRule, Widget.writeFooter] :=
  (c10_sin_fechas proveedorSinOpciones entradasEjemplo 100 (by decide) rfl rfl).1

/-! ### C7 -/

/-- **C7 counterexample.** The cached chain fetch is not keyed by its
arguments: after `("AAPL", d)` populates the cache, a `("MSFT", d)` call and
its within-expiry repetition both return AAPL's chain — a repeated call with
equal arguments whose result differs from the uncached function's. -/
theorem c7_cache_contraejemplo :
    llamadaRepetidaMSFT = Except.ok ([filaEjemplo], []) ∧
    proveedorDosTickers.optionChain "MSFT" "2025-01-17"
      = Except.ok ([filaEjemploMSFT], []) ∧
    llamadaRepetidaMSFT ≠ proveedorDosTickers.optionChain "MSFT" "2025-01-17" := by
  refine ⟨rfl, rfl, ?_⟩
  intro hcontra
  rw [show llamadaRepetidaMSFT = Except.ok ([filaEjemplo], []) from rfl,
    show proveedorDosTickers.optionChain "MSFT" "2025-01-17"
      = Except.ok ([filaEjemploMSFT], []) from rfl] at hcontra
  injection hcontra with hpair
  have hlist : [filaEjemplo] = [filaEjemploMSFT] := congrArg Prod.fst hpair
  have hfila : filaEjemplo = filaEjemploMSFT := by injection hlist
  exact absurd (congrArg OptionRow.contractSymbol hfila) (by decide)

/-- **C7 amended.** The two fetch functions are memoized with a 3600-second
expiry.  `get_option_history` is keyed by its argument: a miss fetches and
stores, and any repeat with the same symbol within the expiry returns the
stored (uncached-equal) value without running the fetch again.
`get_option_dataframes` is keyed by the expiration date alone — the
underscore-prefixed `_ticker` is excluded — so its within-expiry repeats
return the stored value without re-fetching even when the ticker differs. -/
theorem c7_cache_amended (P : Provider) (now₁ now₂ : ℕ)
    (cacheH : List (String × List ℚ × ℕ))
    (cacheD : List (String × (List OptionRow × List OptionRow) × ℕ))
    (cs tk tk' fecha : String) (v : List OptionRow × List OptionRow)
    (hmissH : cacheLookup 3600 now₁ cacheH cs = none)
    (hmissD : cacheLookup 3600 now₁ cacheD fecha = none)
    (hfetch : P.optionChain tk fecha = Except.ok v)
    (hfresh : now₂ < now₁ + 3600) :
    (get_option_history_cacheado P cacheH now₁ cs
      = (get_option_history P cs, (cs, get_option_history P cs, now₁) :: cacheH, true)) ∧
    (get_option_history_cacheado P ((cs, get_option_history P cs, now₁) :: cacheH) now₂ cs
      = (get_option_history P cs, (cs, get_option_history P cs, now₁) :: cacheH, false)) ∧
    (get_option_dataframes_cacheado P cacheD now₁ tk fecha
      = (Except.ok v, (fecha, v, now₁) :: cacheD, true)) ∧
    (get_option_dataframes_cacheado P ((fecha, v, now₁) :: cacheD) now₂ tk' fecha
      = (Except.ok v, (fecha, v, now₁) :: cacheD, false)) := by
  refine ⟨?_, ?_, ?_, ?_⟩
  · unfold get_option_history_cacheado
    rw [hmissH]
  · unfold get_option_history_cacheado cacheLookup
    simp [List.find?_cons, hfresh]
  · unfold get_option_dataframes_cacheado
    rw [hmissD, hfetch]
  · unfold get_option_dataframes_cacheado cacheLookup
    simp [List.find?_cons, hfresh]

/-- Witness for the amended C7: a repeat with a different ticker but the
same date, ten seconds later, is served from the cache without fetching. -/
theorem c7_cache_amended_witness :
    get_option_dataframes_cacheado proveedorDosTickers
        [("2025-01-17", ([filaEjemplo], []), 0)] 10 "MSFT" "2025-01-17"
      = (Except.ok ([filaEjemplo], []),
         [("2025-01-17", ([filaEjemplo], []), 0)], false) :=
  (c7_cache_amended proveedorDosTickers 0 10 [] [] "C95" "AAPL" "MSFT" "2025-01-17"
    ([filaEjemplo], []) rfl rfl rfl (by decide)).2.2.2

end Opciones
